import Mathlib

/-!
Shallow embedding of `src/main.py` of qwen-pi-cli: a command-line chat loop
piping a user query through two HTTP chat-completion endpoints (an analytical
model, then a persona restyler).  HTTP is modelled by an oracle
`HttpRequest → HttpOutcome`; Python exceptions by explicit sum types; the
console by an event trace.  `Json.null` plays Python `None`.
-/

namespace QwenPi

/-- One chat message `{role, content}`. -/
structure Message where
  role : String
  content : String
deriving Repr, DecidableEq

/-- A JSON value (enough structure for the request/response bodies involved).
`Json.null` doubles as Python `None`. -/
inductive Json where
  | null : Json
  | str (s : String) : Json
  | num (n : Int) : Json
  | arr (elems : List Json) : Json
  | obj (fields : List (String × Json)) : Json
deriving Repr

/-- The request body built by both functions:
`{model, messages, max_tokens, temperature}`.  The temperature literals 0.0
and 0.7 are embedded as the exact rationals they denote in the serialized
payload. -/
structure Payload where
  model : String
  messages : List Message
  max_tokens : Nat
  temperature : ℚ
deriving Repr, DecidableEq

/-- The request headers: `Authorization` and `Content-Type`. -/
structure Headers where
  authorization : String
  contentType : String
deriving Repr, DecidableEq

/-- Everything handed to `requests.post`: url, json payload, headers. -/
structure HttpRequest where
  url : String
  payload : Payload
  headers : Headers
deriving Repr, DecidableEq

/-- What the network can do in response to `requests.post`:
raise `requests.exceptions.ConnectionError`, raise some other
`requests.exceptions.RequestException`, or deliver a response with a status
code and a body (`none` = a body that is not decodable JSON, so that
`response.json()` raises). -/
inductive HttpOutcome where
  | connectionError (msg : String) : HttpOutcome
  | requestError (msg : String) : HttpOutcome
  | response (status : Nat) (body : Option Json) : HttpOutcome
deriving Repr

/-- Process-wide configuration read from the environment at startup. -/
structure Config where
  vllm_api_key : String
  vllm_url : String
  vllm_model_name : String
  pi_api_key : String
  pi_version : String
deriving Repr, DecidableEq

/-- The Python exceptions that can arise inside the `try` block of either
function, grouped exactly by the four `except` clauses of the source. -/
inductive PyError where
  | connectionError (msg : String) : PyError
  | requestException (msg : String) : PyError
  | keyError (k : String) : PyError
  | otherException (msg : String) : PyError
deriving Repr, DecidableEq

/-- Exceptions raised while subscripting the parsed response
(`response_data["choices"][0]["message"]["content"]`). -/
inductive PyExc where
  | keyError (k : String) : PyExc
  | indexError (msg : String) : PyExc
  | typeError (msg : String) : PyExc
deriving Repr, DecidableEq

/-- Python `d[k]` on a JSON value: a dict either yields the value or raises
`KeyError`; any non-dict raises `TypeError`. -/
def jsonGet (j : Json) (k : String) : Except PyExc Json :=
  match j with
  | Json.obj fields =>
    match fields.lookup k with
    | some v => Except.ok v
    | none => Except.error (PyExc.keyError k)
  | _ => Except.error (PyExc.typeError "value is not subscriptable by string key")

/-- Python `l[i]` on a JSON value: a list either yields the element or raises
`IndexError`; any non-list raises `TypeError`. -/
def jsonIndex (j : Json) (i : Nat) : Except PyExc Json :=
  match j with
  | Json.arr elems =>
    match elems.get? i with
    | some v => Except.ok v
    | none => Except.error (PyExc.indexError "list index out of range")
  | _ => Except.error (PyExc.typeError "value is not subscriptable by integer index")

/-- `response_data["choices"][0]["message"]["content"]`. -/
def extractContent (response_data : Json) : Except PyExc Json := do
  let choices ← jsonGet response_data "choices"
  let first ← jsonIndex choices 0
  let message ← jsonGet first "message"
  jsonGet message "content"

/-- Which `except` clause of the source catches each subscription exception:
`KeyError` has its own clause; `IndexError`/`TypeError` fall to the generic
`except Exception` clause. -/
def pyExcToError : PyExc → PyError
  | PyExc.keyError k => PyError.keyError k
  | PyExc.indexError m => PyError.otherException m
  | PyExc.typeError m => PyError.otherException m

/-- The message of the `requests.exceptions.HTTPError` raised by
`response.raise_for_status()` for a 4xx/5xx status. -/
def httpErrorMsg (status : Nat) (url : String) : String :=
  toString status ++ " Error for url: " ++ url

/-- The body of the `try` block common to both functions: post the request,
`raise_for_status` (raises for 400-599), decode JSON, subscript out the
content.  Returns the content value or the exception raised. -/
def tryBlock (req : HttpRequest) (o : HttpOutcome) : Except PyError Json :=
  match o with
  | HttpOutcome.connectionError m => Except.error (PyError.connectionError m)
  | HttpOutcome.requestError m => Except.error (PyError.requestException m)
  | HttpOutcome.response status body =>
    if 400 ≤ status ∧ status ≤ 599 then
      Except.error (PyError.requestException (httpErrorMsg status req.url))
    else
      match body with
      | none => Except.error (PyError.requestException "invalid JSON in response body")
      | some j => (extractContent j).mapError pyExcToError

/-- The diagnostic line printed by the `except` clause catching each
exception, exactly as in the source. -/
def errorDiagnostic : PyError → String
  | PyError.connectionError m => "Connection error occurred: " ++ m
  | PyError.requestException m => "Request error occurred: " ++ m
  | PyError.keyError k => "Error parsing response: missing key \x27" ++ k ++ "\x27"
  | PyError.otherException m => "Unexpected error occurred: " ++ m

/-- A coarse classification of the exception: 0 transport, 1 request/protocol,
2 shape (missing key), 3 unclassified.  Used to state that the diagnostics
distinguish the error classes. -/
def errClass : PyError → Nat
  | PyError.connectionError _ => 0
  | PyError.requestException _ => 1
  | PyError.keyError _ => 2
  | PyError.otherException _ => 3

/-- The instrumented result of one function call: the Python return value
(`Json.null` = `None`), the diagnostic lines printed, and the requests handed
to `requests.post`. -/
structure CallResult where
  value : Json
  printed : List String
  sent : List HttpRequest
deriving Repr

/-- The whole `try`/`except` construct shared by both functions: on a normal
return the content is the value and nothing is printed; on any exception the
matching clause prints its diagnostic and returns `None`. -/
def callResultOf (req : HttpRequest) (o : HttpOutcome) : CallResult :=
  match tryBlock req o with
  | Except.ok v => { value := v, printed := [], sent := [req] }
  | Except.error e => { value := Json.null, printed := [errorDiagnostic e], sent := [req] }

/-- The fixed system instruction of `get_factual_answer_from_qwen`. -/
def qwenSystemContent : String :=
  "You are Qwen, the analytical reasoning engine powering Pi\x27s responses. Pi excels at friendly conversation but relies on you for deep analysis, complex reasoning, technical knowledge, and factual accuracy. Your role: provide concise yet complete analytical answers that cover the essential facts, key concepts, and logical reasoning. Be precise and well-structured, but avoid unnecessary verbosity. Focus on the core information Pi needs to give an excellent answer. You handle the \x27thinking\x27 - Pi handles the \x27talking\x27. Prioritize accuracy, relevance, and analytical depth over length."

/-- The `messages` list built by `get_factual_answer_from_qwen`. -/
def qwenMessages (user_query : String) : List Message :=
  [ { role := "system", content := qwenSystemContent },
    { role := "user", content := user_query } ]

/-- The payload built by `get_factual_answer_from_qwen`. -/
def qwenPayload (cfg : Config) (user_query : String) : Payload :=
  { model := cfg.vllm_model_name
    messages := qwenMessages user_query
    max_tokens := 32768
    temperature := 0 }

/-- The headers built by `get_factual_answer_from_qwen`. -/
def qwenHeaders (cfg : Config) : Headers :=
  { authorization := "Bearer " ++ cfg.vllm_api_key
    contentType := "application/json" }

/-- The full request `get_factual_answer_from_qwen` posts to `VLLM_URL`. -/
def qwenRequest (cfg : Config) (user_query : String) : HttpRequest :=
  { url := cfg.vllm_url
    payload := qwenPayload cfg user_query
    headers := qwenHeaders cfg }

/-- `get_factual_answer_from_qwen(user_query)`, with the network abstracted
as the oracle `http`. -/
def get_factual_answer_from_qwen (cfg : Config) (http : HttpRequest → HttpOutcome)
    (user_query : String) : CallResult :=
  let req := qwenRequest cfg user_query
  callResultOf req (http req)

/-- The two recognized persona versions map to two fixed endpoint URLs; any
other value raises `ValueError` (the `Except.error` carries its message). -/
def piUrl (pi_version : String) : Except String String :=
  if pi_version = "inflection_3_pi" then
    Except.ok "https://api.inflection.ai/external/api/inference/openai/v1/chat/completions"
  else if pi_version = "Pi-3.1" then
    Except.ok "https://api.inflection.ai/v1/chat/completions"
  else
    Except.error ("Invalid Pi version: " ++ pi_version)

/-- The fixed system instruction of `restyle_text_with_pi`. -/
def piSystemContent : String :=
  "You are Pi, an AI assistant known for your friendly, supportive, and conversational tone. A user asked a question, and another AI (Qwen) provided a detailed, factual response. Your task is to rewrite Qwen\x27s response using your signature style and personality while keeping it as a direct answer to the original user question. It is CRITICAL that you retain ALL original facts, data, and key details from Qwen\x27s text. DO NOT add new facts. Remember your backstory and personality at all times."

/-- The f-string user content of `restyle_text_with_pi`, embedding the
original query and the factual text verbatim. -/
def piUserContent (text_to_restyle original_query : String) : String :=
  "Original user question: " ++ original_query ++
    "\n\nQwen\x27s factual response to restyle:\n" ++ text_to_restyle

/-- The `messages` list built by `restyle_text_with_pi`. -/
def piMessages (text_to_restyle original_query : String) : List Message :=
  [ { role := "system", content := piSystemContent },
    { role := "user", content := piUserContent text_to_restyle original_query } ]

/-- The payload built by `restyle_text_with_pi`; the model identifier is the
persona version string itself. -/
def piPayload (text_to_restyle original_query pi_version : String) : Payload :=
  { model := pi_version
    messages := piMessages text_to_restyle original_query
    max_tokens := 1024
    temperature := 7/10 }

/-- The headers built by `restyle_text_with_pi` (separate key). -/
def piHeaders (cfg : Config) : Headers :=
  { authorization := "Bearer " ++ cfg.pi_api_key
    contentType := "application/json" }

/-- The full request `restyle_text_with_pi` posts to the selected URL. -/
def piRequest (cfg : Config) (text_to_restyle original_query pi_version url : String) :
    HttpRequest :=
  { url := url
    payload := piPayload text_to_restyle original_query pi_version
    headers := piHeaders cfg }

/-- `restyle_text_with_pi(text_to_restyle, original_query, pi_version)`.
The `Except.error` case is the uncaught `ValueError` for an unrecognized
version, raised before the payload is built or any request is posted. -/
def restyle_text_with_pi (cfg : Config) (http : HttpRequest → HttpOutcome)
    (text_to_restyle original_query pi_version : String) : Except String CallResult :=
  match piUrl pi_version with
  | Except.error e => Except.error e
  | Except.ok pi_url =>
    let req := piRequest cfg text_to_restyle original_query pi_version pi_url
    Except.ok (callResultOf req (http req))

/-- How Python renders the returned value when it is passed on as a string
(`qwen_response` is fed to `restyle_text_with_pi` and to f-strings). A
string is itself; `None` renders as "None"; other shapes get a placeholder
rendering (no claim depends on them). -/
def pyStr : Json → String
  | Json.null => "None"
  | Json.str s => s
  | Json.num n => toString n
  | Json.arr _ => "<list>"
  | Json.obj _ => "<dict>"

/-- Python `str.lower()` as used on the input line (character-wise lowering
of the text; on the ASCII commands involved this matches the Python
behavior). -/
def pyLower (s : String) : String :=
  String.mk (s.data.map Char.toLower)

/-- Observable events of one session: a literal line printed, an answer value
printed, a call of `get_factual_answer_from_qwen`, a request posted, a call
of `restyle_text_with_pi`. -/
inductive Event where
  | printedLine (s : String) : Event
  | printedAnswer (j : Json) : Event
  | qwenCalled (query : String) : Event
  | httpSent (r : HttpRequest) : Event
  | piCalled (text orig version : String) : Event
deriving Repr

/-- The line printed before the Qwen call. -/
def thinkingLine : String := "\n🧠 Thinking with Qwen\x27s brain..."

/-- The line printed before the Pi call. -/
def restylingLine : String := "\n🎨 Adding Pi\x27s friendly voice..."

/-- The events of the Qwen half of a turn: the thinking line, the call, the
posted request, and any diagnostics the callee printed. -/
def qwenTurnEvents (user_input : String) (r : CallResult) : List Event :=
  Event.printedLine thinkingLine :: Event.qwenCalled user_input ::
    (r.sent.map Event.httpSent ++ r.printed.map Event.printedLine)

/-- The events of the Pi half of a turn (entered only when the Qwen result
was not `None`): the two labels, the Qwen answer, the call, the posted
request, callee diagnostics, and, when the Pi result is not `None`, the
styled-answer label and the styled answer. -/
def piTurnEvents (qwenValue : Json) (user_input pi_version : String)
    (pr : CallResult) : List Event :=
  [ Event.printedLine "\nQwen Response:", Event.printedAnswer qwenValue,
    Event.printedLine restylingLine,
    Event.piCalled (pyStr qwenValue) user_input pi_version ] ++
    (pr.sent.map Event.httpSent ++ pr.printed.map Event.printedLine) ++
    (match pr.value with
     | Json.null => []
     | v => [Event.printedLine "\nPi-Style Response:", Event.printedAnswer v])

/-- The loop body of `__main__` after the exit check: call Qwen; if the
result is `None` end the turn; otherwise print it and restyle, and if the
styled result is not `None` print it.  `Except.error` is the uncaught
`ValueError` from `restyle_text_with_pi`. -/
def runTurn (cfg : Config) (qwenHttp piHttp : HttpRequest → HttpOutcome)
    (user_input : String) : Except String (List Event) :=
  let r := get_factual_answer_from_qwen cfg qwenHttp user_input
  let evs := qwenTurnEvents user_input r
  match r.value with
  | Json.null => Except.ok evs
  | v =>
    match restyle_text_with_pi cfg piHttp (pyStr v) user_input cfg.pi_version with
    | Except.error e => Except.error e
    | Except.ok pr => Except.ok (evs ++ piTurnEvents v user_input cfg.pi_version pr)

/-- How the session ends: `exited` is the `break` on the exit command
(process exit status 0); `eofError` is the uncaught `EOFError` that `input()`
raises once standard input is exhausted. -/
inductive SessionEnd where
  | exited : SessionEnd
  | eofError : SessionEnd
deriving Repr, DecidableEq

/-- The prompt `input("\nYou: ")` prints each iteration. -/
def promptLine : String := "\nYou: "

/-- The `while True` loop of `__main__`, driven by the (finite) list of
lines standard input still holds: read a line (raising `EOFError` when none
is left), break on a case-insensitive "exit", otherwise run one turn. -/
def runLoop (cfg : Config) (qwenHttp piHttp : HttpRequest → HttpOutcome) :
    List String → Except String (SessionEnd × List Event)
  | [] => Except.ok (SessionEnd.eofError, [])
  | user_input :: rest =>
    if pyLower user_input = "exit" then
      Except.ok (SessionEnd.exited, [Event.printedLine promptLine])
    else
      match runTurn cfg qwenHttp piHttp user_input with
      | Except.error e => Except.error e
      | Except.ok evs =>
        match runLoop cfg qwenHttp piHttp rest with
        | Except.error e => Except.error e
        | Except.ok (e2, evs2) =>
          Except.ok (e2, Event.printedLine promptLine :: (evs ++ evs2))

/-- The startup banner. -/
def bannerLine (pi_version : String) : String :=
  "Qwen-Pi CLI Chat. Using " ++ pi_version ++ " as Pi. Type \x27exit\x27 to quit."

/-- The `ValueError` message of the startup persona-version check. -/
def startupErrorMsg (pi_version : String) : String :=
  "Invalid Pi version: " ++ pi_version ++
    ", must be \x27Pi-3.1\x27 or \x27inflection_3_pi\x27"

/-- `__main__`: validate `PI_VERSION` (raising `ValueError` otherwise),
print the banner, run the loop over standard input. -/
def mainProgram (cfg : Config) (qwenHttp piHttp : HttpRequest → HttpOutcome)
    (stdinLines : List String) : Except String (SessionEnd × List Event) :=
  if cfg.pi_version ≠ "Pi-3.1" ∧ cfg.pi_version ≠ "inflection_3_pi" then
    Except.error (startupErrorMsg cfg.pi_version)
  else
    match runLoop cfg qwenHttp piHttp stdinLines with
    | Except.error e => Except.error e
    | Except.ok (e2, evs) =>
      Except.ok (e2, Event.printedLine (bannerLine cfg.pi_version) :: evs)

/-- A response body of the shape both functions expect:
`{choices: [{message: {content: c}}, ...more]}`. -/
def goodResponse (c : Json) (more : List Json) : Json :=
  Json.obj [("choices",
    Json.arr (Json.obj [("message", Json.obj [("content", c)])] :: more))]

/-- A concrete configuration used to instantiate theorems with hypotheses. -/
def sampleConfig : Config :=
  { vllm_api_key := "vllm-key"
    vllm_url := "http://localhost:8000/v1/chat/completions"
    vllm_model_name := "Qwen/Qwen2.5-7B-Instruct"
    pi_api_key := "pi-key"
    pi_version := "Pi-3.1" }

/-- A network oracle on which every post raises a connection error. -/
def downNetwork : HttpRequest → HttpOutcome :=
  fun _ => HttpOutcome.connectionError "connection refused"

/-- The first character of the diagnostic printed for each error class
(Connection/Request/Error parsing/Unexpected): the four diagnostics are
told apart by it. -/
def classDiagChar : Nat → Char
  | 0 => 'C'
  | 1 => 'R'
  | 2 => 'E'
  | _ => 'U'

/- ### Helper lemmas -/

theorem callResultOf_sent (req : HttpRequest) (o : HttpOutcome) :
    (callResultOf req o).sent = [req] := by
  unfold callResultOf
  cases tryBlock req o <;> rfl

theorem restyle_unfold_of_valid (cfg : Config) (http : HttpRequest → HttpOutcome)
    (t q v : String) (hv : v = "Pi-3.1" ∨ v = "inflection_3_pi") :
    ∃ url, piUrl v = Except.ok url ∧
      restyle_text_with_pi cfg http t q v =
        Except.ok (callResultOf (piRequest cfg t q v url)
          (http (piRequest cfg t q v url))) := by
  rcases hv with rfl | rfl
  · exact ⟨_, rfl, rfl⟩
  · exact ⟨_, rfl, rfl⟩

/- ### Claim theorems -/

/-- C2: for each of the two valid persona versions, `restyle_text_with_pi`
posts exactly one request, to the fixed endpoint URL of that version
(`inflection_3_pi` to the /external/api/inference/openai/v1/chat/completions
URL, `Pi-3.1` to the /v1/chat/completions URL), with the persona version
string itself as the model identifier of the payload. -/
theorem c2_restyle_endpoint_and_model (cfg : Config)
    (http : HttpRequest → HttpOutcome) (t q : String) :
    (∃ cr, restyle_text_with_pi cfg http t q "inflection_3_pi" = Except.ok cr
       ∧ cr.sent.map HttpRequest.url =
           ["https://api.inflection.ai/external/api/inference/openai/v1/chat/completions"]
       ∧ cr.sent.map (fun r => r.payload.model) = ["inflection_3_pi"])
  ∧ (∃ cr, restyle_text_with_pi cfg http t q "Pi-3.1" = Except.ok cr
       ∧ cr.sent.map HttpRequest.url = ["https://api.inflection.ai/v1/chat/completions"]
       ∧ cr.sent.map (fun r => r.payload.model) = ["Pi-3.1"]) := by
  constructor
  · exact ⟨_, rfl, by rw [callResultOf_sent]; rfl, by rw [callResultOf_sent]; rfl⟩
  · exact ⟨_, rfl, by rw [callResultOf_sent]; rfl, by rw [callResultOf_sent]; rfl⟩

/-- C3: for any persona version other than the two recognized ones,
`restyle_text_with_pi` raises `ValueError` (uncaught, so it propagates as
`Except.error`), and the result does not depend on the network oracle at
all: no payload is built and no request is posted. -/
theorem c3_invalid_version_raises (cfg : Config) (http : HttpRequest → HttpOutcome)
    (t q v : String) (h1 : v ≠ "inflection_3_pi") (h2 : v ≠ "Pi-3.1") :
    restyle_text_with_pi cfg http t q v = Except.error ("Invalid Pi version: " ++ v) := by
  unfold restyle_text_with_pi piUrl
  rw [if_neg h1, if_neg h2]

theorem c3_witness :
    restyle_text_with_pi sampleConfig downNetwork "some facts" "some question" "bogus" =
      Except.error ("Invalid Pi version: " ++ "bogus") :=
  c3_invalid_version_raises sampleConfig downNetwork "some facts" "some question" "bogus"
    (by decide) (by decide)

/-- C5: both functions build exactly one system message followed by exactly
one user message, and the user message of `restyle_text_with_pi` contains
both the original query and the factual text verbatim (as untouched
substrings of its content). -/
theorem c5_messages_shape (q t : String) :
    (qwenMessages q).map Message.role = ["system", "user"]
  ∧ (qwenMessages q).map Message.content = [qwenSystemContent, q]
  ∧ (piMessages t q).map Message.role = ["system", "user"]
  ∧ (piMessages t q).map Message.content = [piSystemContent, piUserContent t q]
  ∧ (∃ a b, piUserContent t q = a ++ q ++ b)
  ∧ (∃ a b, piUserContent t q = a ++ t ++ b) := by
  refine ⟨rfl, rfl, rfl, rfl,
    ⟨"Original user question: ", "\n\nQwen\x27s factual response to restyle:\n" ++ t, ?_⟩,
    ⟨"Original user question: " ++ q ++ "\n\nQwen\x27s factual response to restyle:\n", "", ?_⟩⟩
  · simp [piUserContent, String.append_assoc]
  · simp [piUserContent, String.append_assoc]

/-- C6: the analytical payload fixes max_tokens 32768 and temperature 0.0
with the analytical bearer key; the persona payload fixes max_tokens 1024
and temperature 0.7 with the separate persona bearer key; and on a 2xx
response of the expected shape each function returns exactly the content
field of the first element of the choices array. -/
theorem c6_payload_constants_and_success
    (cfg : Config) (qwenHttp piHttp : HttpRequest → HttpOutcome)
    (q t v url : String) (c : Json) (more : List Json) (status : Nat) :
    (qwenPayload cfg q).max_tokens = 32768
  ∧ (qwenPayload cfg q).temperature = 0
  ∧ (qwenHeaders cfg).authorization = "Bearer " ++ cfg.vllm_api_key
  ∧ (piPayload t q v).max_tokens = 1024
  ∧ (piPayload t q v).temperature = 7/10
  ∧ (piHeaders cfg).authorization = "Bearer " ++ cfg.pi_api_key
  ∧ extractContent (goodResponse c more) = Except.ok c
  ∧ (¬(400 ≤ status ∧ status ≤ 599) →
      qwenHttp (qwenRequest cfg q) = HttpOutcome.response status (some (goodResponse c more)) →
      get_factual_answer_from_qwen cfg qwenHttp q =
        { value := c, printed := [], sent := [qwenRequest cfg q] })
  ∧ (piUrl v = Except.ok url →
      ¬(400 ≤ status ∧ status ≤ 599) →
      piHttp (piRequest cfg t q v url) = HttpOutcome.response status (some (goodResponse c more)) →
      restyle_text_with_pi cfg piHttp t q v =
        Except.ok { value := c, printed := [], sent := [piRequest cfg t q v url] }) := by
  refine ⟨rfl, rfl, rfl, rfl, rfl, rfl, rfl, ?_, ?_⟩
  · intro hstatus hresp
    simp only [get_factual_answer_from_qwen]
    rw [hresp]
    simp only [callResultOf, tryBlock, if_neg hstatus]
    rfl
  · intro hurl hstatus hresp
    simp only [restyle_text_with_pi]
    rw [hurl]
    simp only []
    rw [hresp]
    simp only [callResultOf, tryBlock, if_neg hstatus]
    rfl

theorem c6_witness :
    get_factual_answer_from_qwen sampleConfig
        (fun _ => HttpOutcome.response 200 (some (goodResponse (Json.str "Paris.") [])))
        "capital of France?" =
      { value := Json.str "Paris.", printed := [],
        sent := [qwenRequest sampleConfig "capital of France?"] }
  ∧ restyle_text_with_pi sampleConfig
        (fun _ => HttpOutcome.response 200 (some (goodResponse (Json.str "Paris!") [])))
        "Paris." "capital of France?" "Pi-3.1" =
      Except.ok { value := Json.str "Paris!", printed := [],
                  sent := [piRequest sampleConfig "Paris." "capital of France?" "Pi-3.1"
                    "https://api.inflection.ai/v1/chat/completions"] } :=
  ⟨(c6_payload_constants_and_success sampleConfig
      (fun _ => HttpOutcome.response 200 (some (goodResponse (Json.str "Paris.") [])))
      (fun _ => HttpOutcome.response 200 (some (goodResponse (Json.str "Paris!") [])))
      "capital of France?" "Paris." "Pi-3.1" "https://api.inflection.ai/v1/chat/completions"
      (Json.str "Paris.") [] 200).2.2.2.2.2.2.2.1 (by decide) rfl,
   (c6_payload_constants_and_success sampleConfig
      (fun _ => HttpOutcome.response 200 (some (goodResponse (Json.str "Paris.") [])))
      (fun _ => HttpOutcome.response 200 (some (goodResponse (Json.str "Paris!") [])))
      "capital of France?" "Paris." "Pi-3.1" "https://api.inflection.ai/v1/chat/completions"
      (Json.str "Paris!") [] 200).2.2.2.2.2.2.2.2 rfl (by decide) rfl⟩

theorem get_factual_eq (cfg : Config) (http : HttpRequest → HttpOutcome) (q : String) :
    get_factual_answer_from_qwen cfg http q =
      callResultOf (qwenRequest cfg q) (http (qwenRequest cfg q)) := rfl

theorem callResultOf_printed (req : HttpRequest) (o : HttpOutcome) :
    (callResultOf req o).printed = [] ∨
      ∃ e, (callResultOf req o).printed = [errorDiagnostic e] := by
  unfold callResultOf
  cases tryBlock req o
  · exact Or.inr ⟨_, rfl⟩
  · exact Or.inl rfl

theorem errorDiagnostic_head (e : PyError) :
    (errorDiagnostic e).data.head? = some (classDiagChar (errClass e)) := by
  cases e with
  | connectionError m => cases m with | mk d => rfl
  | requestException m => cases m with | mk d => rfl
  | keyError k => cases k with | mk d => rfl
  | otherException m => cases m with | mk d => rfl

theorem errorDiagnostic_classifies (e₁ e₂ : PyError)
    (h : errorDiagnostic e₁ = errorDiagnostic e₂) : errClass e₁ = errClass e₂ := by
  have h1 := errorDiagnostic_head e₁
  have h2 := errorDiagnostic_head e₂
  rw [h, h2] at h1
  cases e₁ <;> cases e₂ <;> (try rfl) <;>
    (simp only [errClass, classDiagChar] at h1;
     exact absurd (Option.some.inj h1) (by decide))

theorem errorDiagnostic_ne_piLabel (e : PyError) :
    errorDiagnostic e ≠ "\nPi-Style Response:" := by
  intro h
  have h1 := errorDiagnostic_head e
  rw [h] at h1
  cases e <;> (simp only [errClass, classDiagChar] at h1; exact absurd h1 (by decide))

theorem runTurn_ok_of_valid (cfg : Config) (qh ph : HttpRequest → HttpOutcome)
    (input : String)
    (hv : cfg.pi_version = "Pi-3.1" ∨ cfg.pi_version = "inflection_3_pi") :
    ∃ evs, runTurn cfg qh ph input = Except.ok evs := by
  simp only [runTurn]
  rcases hv with hv | hv <;>
    cases (get_factual_answer_from_qwen cfg qh input).value <;>
      first
        | exact ⟨_, rfl⟩
        | (rw [hv]; exact ⟨_, rfl⟩)

theorem runLoop_ok_of_valid (cfg : Config) (qh ph : HttpRequest → HttpOutcome)
    (hv : cfg.pi_version = "Pi-3.1" ∨ cfg.pi_version = "inflection_3_pi")
    (inputs : List String) :
    ∃ e evs, runLoop cfg qh ph inputs = Except.ok (e, evs)
      ∧ (e = SessionEnd.exited ↔ ∃ s ∈ inputs, pyLower s = "exit") := by
  induction inputs with
  | nil => exact ⟨SessionEnd.eofError, [], rfl, by simp⟩
  | cons s rest ih =>
    by_cases hs : pyLower s = "exit"
    · refine ⟨SessionEnd.exited, [Event.printedLine promptLine], ?_, ?_⟩
      · simp only [runLoop]
        rw [if_pos hs]
      · exact iff_of_true rfl ⟨s, List.mem_cons_self s rest, hs⟩
    · obtain ⟨e2, evs2, hloop, hiff⟩ := ih
      obtain ⟨evs, hturn⟩ := runTurn_ok_of_valid cfg qh ph s hv
      refine ⟨e2, Event.printedLine promptLine :: (evs ++ evs2), ?_, ?_⟩
      · simp only [runLoop]
        rw [if_neg hs, hturn, hloop]
      · rw [hiff]
        constructor
        · rintro ⟨t, ht, hlt⟩
          exact ⟨t, List.mem_cons_of_mem s ht, hlt⟩
        · rintro ⟨t, ht, hlt⟩
          rcases List.mem_cons.mp ht with rfl | hmem
          · exact absurd hlt hs
          · exact ⟨t, hmem, hlt⟩

theorem runTurn_ok_events (cfg : Config) (qh ph : HttpRequest → HttpOutcome)
    (input : String) (evs : List Event)
    (h : runTurn cfg qh ph input = Except.ok evs) :
    ∃ tail,
      evs = qwenTurnEvents input (get_factual_answer_from_qwen cfg qh input) ++ tail := by
  simp only [runTurn] at h
  split at h
  · refine ⟨[], ?_⟩
    rw [List.append_nil]
    exact (Except.ok.inj h).symm
  · split at h
    · exact Except.noConfusion h
    · exact ⟨_, (Except.ok.inj h).symm⟩

/-- C1: on a non-exit input, if `get_factual_answer_from_qwen` returns `None`
then `restyle_text_with_pi` is never invoked for that turn and no styled
answer is printed, and the loop proceeds to the rest of the input. -/
theorem c1_qwen_absent_skips_restyle (cfg : Config)
    (qwenHttp piHttp : HttpRequest → HttpOutcome) (user_input : String)
    (rest : List String)
    (hnexit : pyLower user_input ≠ "exit")
    (habsent : (get_factual_answer_from_qwen cfg qwenHttp user_input).value = Json.null) :
    ∃ evs, runTurn cfg qwenHttp piHttp user_input = Except.ok evs
      ∧ (∀ a b c, Event.piCalled a b c ∉ evs)
      ∧ Event.printedLine "\nPi-Style Response:" ∉ evs
      ∧ runLoop cfg qwenHttp piHttp (user_input :: rest) =
          (match runLoop cfg qwenHttp piHttp rest with
           | Except.error e => Except.error e
           | Except.ok (e2, evs2) =>
             Except.ok (e2, Event.printedLine promptLine :: (evs ++ evs2))) := by
  have hturn : runTurn cfg qwenHttp piHttp user_input =
      Except.ok (qwenTurnEvents user_input
        (get_factual_answer_from_qwen cfg qwenHttp user_input)) := by
    simp only [runTurn]
    rw [habsent]
  refine ⟨_, hturn, ?_, ?_, ?_⟩
  · intro a b c hmem
    simp only [qwenTurnEvents, List.mem_cons, List.mem_append, List.mem_map] at hmem
    rcases hmem with h | h | ⟨x, _, h⟩ | ⟨x, _, h⟩ <;> exact Event.noConfusion h
  · intro hmem
    simp only [qwenTurnEvents, List.mem_cons, List.mem_append, List.mem_map] at hmem
    rcases hmem with h | h | ⟨x, _, h⟩ | ⟨x, hx, h⟩
    · exact absurd (Event.printedLine.inj h) (by decide)
    · exact Event.noConfusion h
    · exact Event.noConfusion h
    · rw [get_factual_eq] at hx
      rcases callResultOf_printed (qwenRequest cfg user_input)
          (qwenHttp (qwenRequest cfg user_input)) with hp | ⟨e, hp⟩
      · rw [hp] at hx
        exact absurd hx (List.not_mem_nil x)
      · rw [hp] at hx
        rw [List.mem_singleton.mp hx] at h
        exact errorDiagnostic_ne_piLabel e (Event.printedLine.inj h)
  · simp only [runLoop]
    rw [if_neg hnexit, hturn]

theorem c1_witness :
    pyLower "hello" ≠ "exit"
  ∧ (get_factual_answer_from_qwen sampleConfig downNetwork "hello").value = Json.null
  ∧ ∃ evs, runTurn sampleConfig downNetwork downNetwork "hello" = Except.ok evs
      ∧ (∀ a b c, Event.piCalled a b c ∉ evs)
      ∧ Event.printedLine "\nPi-Style Response:" ∉ evs
      ∧ runLoop sampleConfig downNetwork downNetwork ["hello"] =
          (match runLoop sampleConfig downNetwork downNetwork [] with
           | Except.error e => Except.error e
           | Except.ok (e2, evs2) =>
             Except.ok (e2, Event.printedLine promptLine :: (evs ++ evs2))) :=
  ⟨by decide, rfl,
   c1_qwen_absent_skips_restyle sampleConfig downNetwork downNetwork "hello" []
     (by decide) rfl⟩

/-- C4: every exception the `try` block can raise — transport failure, other
request exceptions including 4xx/5xx statuses and undecodable bodies, a
missing key, or any other exception while subscripting — is caught by its
`except` clause, which prints exactly one diagnostic line and returns `None`;
nothing propagates (the functions still return normally), and the diagnostic
distinguishes the error class. -/
theorem c4_exceptions_caught (cfg : Config)
    (qwenHttp piHttp : HttpRequest → HttpOutcome) (q t v url : String) (e : PyError) :
    (tryBlock (qwenRequest cfg q) (qwenHttp (qwenRequest cfg q)) = Except.error e →
      get_factual_answer_from_qwen cfg qwenHttp q =
        { value := Json.null, printed := [errorDiagnostic e],
          sent := [qwenRequest cfg q] })
  ∧ (piUrl v = Except.ok url →
      tryBlock (piRequest cfg t q v url) (piHttp (piRequest cfg t q v url)) =
        Except.error e →
      restyle_text_with_pi cfg piHttp t q v =
        Except.ok { value := Json.null, printed := [errorDiagnostic e],
                    sent := [piRequest cfg t q v url] })
  ∧ (∀ e₂, errorDiagnostic e = errorDiagnostic e₂ → errClass e = errClass e₂) := by
  refine ⟨?_, ?_, fun e₂ h => errorDiagnostic_classifies e e₂ h⟩
  · intro htry
    rw [get_factual_eq]
    simp only [callResultOf]
    rw [htry]
  · intro hurl htry
    simp only [restyle_text_with_pi]
    rw [hurl]
    simp only [callResultOf]
    rw [htry]

theorem c4_witness :
    get_factual_answer_from_qwen sampleConfig downNetwork "hi" =
      { value := Json.null,
        printed := [errorDiagnostic (PyError.connectionError "connection refused")],
        sent := [qwenRequest sampleConfig "hi"] }
  ∧ restyle_text_with_pi sampleConfig downNetwork "facts" "hi" "Pi-3.1" =
      Except.ok { value := Json.null,
                  printed := [errorDiagnostic (PyError.connectionError "connection refused")],
                  sent := [piRequest sampleConfig "facts" "hi" "Pi-3.1"
                    "https://api.inflection.ai/v1/chat/completions"] } :=
  ⟨(c4_exceptions_caught sampleConfig downNetwork downNetwork "hi" "facts" "Pi-3.1"
      "https://api.inflection.ai/v1/chat/completions"
      (PyError.connectionError "connection refused")).1 rfl,
   (c4_exceptions_caught sampleConfig downNetwork downNetwork "hi" "facts" "Pi-3.1"
      "https://api.inflection.ai/v1/chat/completions"
      (PyError.connectionError "connection refused")).2.1 rfl rfl⟩

/-- C7 fails as stated: with a valid persona version and standard input
exhausted before any exit line, `input()` raises an uncaught `EOFError` and
the process ends with an unhandled-error status that is not the startup
persona-version misconfiguration. -/
theorem c7_counterexample :
    sampleConfig.pi_version = "Pi-3.1"
  ∧ mainProgram sampleConfig downNetwork downNetwork [] =
      Except.ok (SessionEnd.eofError, [Event.printedLine (bannerLine "Pi-3.1")]) :=
  ⟨rfl, rfl⟩

/-- C7 (amended): the loop exits the process with status 0 exactly when an
input line equals "exit" case-insensitively, stopping at the first such line
with no further I/O; the process ends with an unhandled-error status for the
persona-version misconfiguration checked at startup and also when standard
input is exhausted before an exit line (`EOFError` from `input()`); no other
condition ends the session. -/
theorem c7_session_termination (cfg : Config)
    (qwenHttp piHttp : HttpRequest → HttpOutcome) (inputs : List String) :
    (cfg.pi_version ≠ "Pi-3.1" ∧ cfg.pi_version ≠ "inflection_3_pi" →
      mainProgram cfg qwenHttp piHttp inputs =
        Except.error (startupErrorMsg cfg.pi_version))
  ∧ (cfg.pi_version = "Pi-3.1" ∨ cfg.pi_version = "inflection_3_pi" →
      ∃ e evs, mainProgram cfg qwenHttp piHttp inputs = Except.ok (e, evs)
        ∧ (e = SessionEnd.exited ↔ ∃ s ∈ inputs, pyLower s = "exit"))
  ∧ (∀ s rest, pyLower s = "exit" →
      runLoop cfg qwenHttp piHttp (s :: rest) =
        Except.ok (SessionEnd.exited, [Event.printedLine promptLine])) := by
  refine ⟨?_, ?_, ?_⟩
  · intro h
    unfold mainProgram
    rw [if_pos h]
  · intro hv
    obtain ⟨e, evs, hloop, hiff⟩ := runLoop_ok_of_valid cfg qwenHttp piHttp hv inputs
    refine ⟨e, Event.printedLine (bannerLine cfg.pi_version) :: evs, ?_, hiff⟩
    unfold mainProgram
    rw [if_neg (fun hc => hv.elim (fun h1 => hc.1 h1) (fun h2 => hc.2 h2)), hloop]
  · intro s rest hs
    simp only [runLoop]
    rw [if_pos hs]

theorem c7_witness :
    (∃ e evs, mainProgram sampleConfig downNetwork downNetwork ["EXIT"] =
        Except.ok (e, evs)
      ∧ (e = SessionEnd.exited ↔ ∃ s ∈ ["EXIT"], pyLower s = "exit"))
  ∧ runLoop sampleConfig downNetwork downNetwork ["EXIT"] =
      Except.ok (SessionEnd.exited, [Event.printedLine promptLine]) :=
  ⟨(c7_session_termination sampleConfig downNetwork downNetwork ["EXIT"]).2.1
     (Or.inl rfl),
   (c7_session_termination sampleConfig downNetwork downNetwork ["EXIT"]).2.2
     "EXIT" [] (by decide)⟩

/-- C8: request construction is deterministic — the request posted by
`get_factual_answer_from_qwen` is the same function of (configuration,
query) whatever the network does, and likewise the request posted by
`restyle_text_with_pi` is the same function of (configuration, factual text,
query, persona version). -/
theorem c8_request_construction_deterministic (cfg : Config) (q t v : String)
    (http₁ http₂ : HttpRequest → HttpOutcome) :
    (get_factual_answer_from_qwen cfg http₁ q).sent =
      (get_factual_answer_from_qwen cfg http₂ q).sent
  ∧ (get_factual_answer_from_qwen cfg http₁ q).sent = [qwenRequest cfg q]
  ∧ (restyle_text_with_pi cfg http₁ t q v).map CallResult.sent =
      (restyle_text_with_pi cfg http₂ t q v).map CallResult.sent
  ∧ (∀ url, piUrl v = Except.ok url →
      (restyle_text_with_pi cfg http₁ t q v).map CallResult.sent =
        Except.ok [piRequest cfg t q v url]) := by
  refine ⟨?_, ?_, ?_, ?_⟩
  · rw [get_factual_eq, get_factual_eq, callResultOf_sent, callResultOf_sent]
  · rw [get_factual_eq, callResultOf_sent]
  · unfold restyle_text_with_pi
    cases piUrl v
    · rfl
    · simp only [Except.map]
      rw [callResultOf_sent, callResultOf_sent]
  · intro url hurl
    unfold restyle_text_with_pi
    rw [hurl]
    simp only [Except.map]
    rw [callResultOf_sent]

theorem c8_witness :
    piUrl "Pi-3.1" = Except.ok "https://api.inflection.ai/v1/chat/completions"
  ∧ (restyle_text_with_pi sampleConfig downNetwork "facts" "query" "Pi-3.1").map
      CallResult.sent =
      Except.ok [piRequest sampleConfig "facts" "query" "Pi-3.1"
        "https://api.inflection.ai/v1/chat/completions"] :=
  ⟨rfl,
   (c8_request_construction_deterministic sampleConfig "query" "facts" "Pi-3.1"
      downNetwork downNetwork).2.2.2
     "https://api.inflection.ai/v1/chat/completions" rfl⟩

/-- C9: under the startup precondition that the configured persona version is
one of the two recognized values, the invalid-version `ValueError` branch of
`restyle_text_with_pi` is unreachable: the call the loop makes (always with
the validated process-wide version) returns normally on every turn. -/
theorem c9_invalid_branch_unreachable (cfg : Config)
    (qwenHttp piHttp : HttpRequest → HttpOutcome) (t q user_input : String)
    (hvalid : cfg.pi_version = "Pi-3.1" ∨ cfg.pi_version = "inflection_3_pi") :
    (∀ http : HttpRequest → HttpOutcome,
      ∃ cr, restyle_text_with_pi cfg http t q cfg.pi_version = Except.ok cr)
  ∧ (∃ evs, runTurn cfg qwenHttp piHttp user_input = Except.ok evs) := by
  constructor
  · intro http
    obtain ⟨url, _, hok⟩ := restyle_unfold_of_valid cfg http t q cfg.pi_version hvalid
    exact ⟨_, hok⟩
  · exact runTurn_ok_of_valid cfg qwenHttp piHttp user_input hvalid

theorem c9_witness :
    (∀ http : HttpRequest → HttpOutcome,
      ∃ cr, restyle_text_with_pi sampleConfig http "facts" "query"
        sampleConfig.pi_version = Except.ok cr)
  ∧ (∃ evs, runTurn sampleConfig downNetwork downNetwork "hello" = Except.ok evs) :=
  c9_invalid_branch_unreachable sampleConfig downNetwork downNetwork "facts" "query"
    "hello" (Or.inl rfl)

/-- C10: every input line whose lowercased form is not exactly "exit" —
including the empty string and whitespace-padded variants — is passed
unchanged as the query of `get_factual_answer_from_qwen` and triggers a full
turn including an HTTP request. -/
theorem c10_nonexit_runs_full_turn (cfg : Config)
    (qwenHttp piHttp : HttpRequest → HttpOutcome) (user_input : String)
    (rest : List String) (hnexit : pyLower user_input ≠ "exit") :
    (get_factual_answer_from_qwen cfg qwenHttp user_input).sent =
      [qwenRequest cfg user_input]
  ∧ (qwenRequest cfg user_input).payload.messages.map Message.content =
      [qwenSystemContent, user_input]
  ∧ (∀ evs, runTurn cfg qwenHttp piHttp user_input = Except.ok evs →
      Event.qwenCalled user_input ∈ evs
        ∧ Event.httpSent (qwenRequest cfg user_input) ∈ evs)
  ∧ runLoop cfg qwenHttp piHttp (user_input :: rest) =
      (match runTurn cfg qwenHttp piHttp user_input with
       | Except.error e => Except.error e
       | Except.ok evs =>
         match runLoop cfg qwenHttp piHttp rest with
         | Except.error e => Except.error e
         | Except.ok (e2, evs2) =>
           Except.ok (e2, Event.printedLine promptLine :: (evs ++ evs2))) := by
  have hsent : (get_factual_answer_from_qwen cfg qwenHttp user_input).sent =
      [qwenRequest cfg user_input] := by
    rw [get_factual_eq, callResultOf_sent]
  refine ⟨hsent, rfl, ?_, ?_⟩
  · intro evs hevs
    obtain ⟨tail, rfl⟩ := runTurn_ok_events cfg qwenHttp piHttp user_input evs hevs
    constructor
    · simp [qwenTurnEvents]
    · simp [qwenTurnEvents, hsent]
  · simp only [runLoop]
    rw [if_neg hnexit]

theorem c10_witness :
    pyLower " exit " ≠ "exit"
  ∧ (get_factual_answer_from_qwen sampleConfig downNetwork " exit ").sent =
      [qwenRequest sampleConfig " exit "]
  ∧ (qwenRequest sampleConfig " exit ").payload.messages.map Message.content =
      [qwenSystemContent, " exit "] :=
  ⟨by decide,
   (c10_nonexit_runs_full_turn sampleConfig downNetwork downNetwork " exit " []
      (by decide)).1,
   (c10_nonexit_runs_full_turn sampleConfig downNetwork downNetwork " exit " []
      (by decide)).2.1⟩

end QwenPi
